import Mathlib

/-!
Shallow embedding of the search pipeline of the wildlife-locator app
(src/App.js).  The file contains three near-duplicate variants of the app,
referred to here as V1 (the first `App` component: keyword search with a
debounced autocomplete, surveys fetched inside a circle, metadata fetched
for the full stage-1 id list), V2 (the second component: species path with
survey grouping, per-project occurrence counts and annotated metadata) and
V3 (the third component: keyword path with an explicit circle filter
intersected against the stage-1 ids and metadata sorted by LastLoadDate).

JavaScript numbers appearing only as opaque values (coordinates) are
modelled as `Int`; identifiers and counts as `Nat`; `LastLoadDate` as the
`Nat` timestamp produced by `new Date(...)`.  A field that may be absent
(`undefined`) is an `Option`.  A transport failure of an axios call is the
`Except.error` case of the corresponding service function.
-/

/-- A latitude/longitude pair as stored in component state. -/
structure Coordinate where
  latitude : Int
  longitude : Int
deriving DecidableEq, Repr

/-- The circle query parameter "lat,lon,radius" sent to the directory service. -/
structure CircleParam where
  latitude : Int
  longitude : Int
  radius : Nat
deriving DecidableEq, Repr

/-- One entry of the `Project` collection returned by the projectsearch and
getprojects operations; only `ProjectID` is read by the code. -/
structure ProjectEntry where
  ProjectID : Nat
deriving DecidableEq, Repr

/-- The body of a projectsearch / getprojects response: `data?.Project` may be
absent. -/
structure ProjectsResponse where
  Project : Option (List ProjectEntry)
deriving DecidableEq, Repr

/-- `api1Response.data?.Project?.map((project) => project.ProjectID) || []`. -/
def projectIDsOf (r : ProjectsResponse) : List Nat :=
  match r.Project with
  | some ps => ps.map (fun p => p.ProjectID)
  | none => []

/-- GeoJSON geometry of a survey feature: `coordinates` holds
(index 0 = longitude, index 1 = latitude). -/
structure Geometry where
  coordinates : Int × Int
deriving DecidableEq, Repr

/-- The `properties` object of a survey feature.  `ProjectID` is `none` when
the property is absent; the JavaScript guard `if (projectID)` is falsy both
for an absent id and for the number 0. -/
structure SurveyProperties where
  ProjectID : Option Nat
  ProjectName : String
  LocalityDetails : String
  StartDate : String
  EndDate : String
  SiteCode : String
  LocationPrecision : Int
deriving DecidableEq, Repr

/-- A survey feature of the getsurveys / getsurveysbyspecies response. -/
structure Survey where
  id : Nat
  geometry : Geometry
  properties : SurveyProperties
deriving DecidableEq, Repr

/-- The body of a surveys response: `data?.features` may be absent. -/
structure SurveysResponse where
  features : Option (List Survey)
deriving DecidableEq, Repr

/-- The `.Project` object inside a metadata record. -/
structure ProjectInfo where
  ProjectID : Nat
  Name : String
deriving DecidableEq, Repr

/-- A project metadata record; `LastLoadDate` is the timestamp that
`new Date(x.LastLoadDate)` evaluates to. -/
structure ProjectMetadata where
  Project : ProjectInfo
  Abstract : String
  LastLoadDate : Nat
deriving DecidableEq, Repr

/-- The `data?.ProjectMetadata` field: absent, a single object, or an array. -/
inductive MetadataField where
  | absent : MetadataField
  | single : ProjectMetadata → MetadataField
  | array : List ProjectMetadata → MetadataField
deriving DecidableEq, Repr

/-- A metadata record with the `surveyCount` annotation spread onto it
(`{...project, surveyCount: ...}`). -/
structure CombinedMetadata extends ProjectMetadata where
  surveyCount : Nat
deriving DecidableEq, Repr

/-- One species suggestion of the speciessearch response. -/
structure SpeciesItem where
  ScientificName : String
  AcceptedCommonName : String
  TaxonID : Nat
  SpeciesID : Nat
  SpeciesName : String
deriving DecidableEq, Repr

/-- The body of a speciessearch response: the `Species` collection may be
absent. -/
structure SpeciesResponse where
  Species : Option (List SpeciesItem)
deriving DecidableEq, Repr

/-- The remote GET requests a pipeline run can issue, with the parameters the
code puts in the query string. -/
inductive Request where
  | projectSearch : String → Request
  | getProjects : CircleParam → Request
  | getSurveys : List Nat → CircleParam → Request
  | getSurveysBySpecies : Nat → CircleParam → Request
  | getProjectsMetadata : List Nat → Request
deriving DecidableEq, Repr

/-! ### JavaScript Map and object-as-dictionary semantics

`projectIDs` in V2 is a `Map` from project id to count; a JS `Map` keeps
insertion order and `set` on an existing key updates it in place.  The
marker groups are an object keyed by the string "lat,lon"; such keys are
never array indices, so `Object.values` returns the groups in first-insertion
order.  Both are modelled as association lists. -/

/-- `map.get(k)`: the value stored at `k`, if any. -/
def mapGet (m : List (Nat × Nat)) (k : Nat) : Option Nat :=
  match m with
  | [] => none
  | e :: es => if e.1 = k then some e.2 else mapGet es k

/-- `map.set(k, v)`: update in place if the key exists, else append. -/
def mapSet (m : List (Nat × Nat)) (k v : Nat) : List (Nat × Nat) :=
  match m with
  | [] => [(k, v)]
  | e :: es => if e.1 = k then (k, v) :: es else e :: mapSet es k v

/-- JavaScript truthiness of the `projectID` property: absent and 0 are falsy. -/
def truthyId (pid : Option Nat) : Bool :=
  match pid with
  | some n => n != 0
  | none => false

/-- The coordinate key `"lat,lon"` built from a survey, i.e. the pair
(coordinates[1], coordinates[0]); JavaScript stringification of numbers is
injective, so two keys are equal iff these pairs are. -/
def coordKeyOf (s : Survey) : Int × Int :=
  (s.geometry.coordinates.2, s.geometry.coordinates.1)

/-- One value of the `markerGroups` object: the coordinate taken from the
first survey seen at that key, and the `properties` objects pushed so far. -/
structure MarkerGroup where
  coordinate : Coordinate
  surveys : List SurveyProperties
deriving DecidableEq, Repr

/-- `if (!markerGroups[coordKey]) { markerGroups[coordKey] = ... };
markerGroups[coordKey].surveys.push(survey.properties)`: create the group at
the end if the key is new, then push. -/
def addToGroups (groups : List ((Int × Int) × MarkerGroup)) (k : Int × Int)
    (p : SurveyProperties) : List ((Int × Int) × MarkerGroup) :=
  match groups with
  | [] => [(k, { coordinate := { latitude := k.1, longitude := k.2 }, surveys := [p] })]
  | g :: gs =>
    if g.1 = k then (g.1, { g.2 with surveys := g.2.surveys ++ [p] }) :: gs
    else g :: addToGroups gs k p

/-- The two accumulators of the `surveys.forEach` loop in V2. -/
structure SurveyAccum where
  projectIDs : List (Nat × Nat)
  markerGroups : List ((Int × Int) × MarkerGroup)
deriving DecidableEq, Repr

/-- One iteration of the `surveys.forEach` body: count the project id when it
is truthy and push the properties into the coordinate group. -/
def surveyStep (acc : SurveyAccum) (survey : Survey) : SurveyAccum :=
  let projectID := survey.properties.ProjectID
  let coordKey := coordKeyOf survey
  let counts :=
    match projectID with
    | some pid =>
      if pid ≠ 0 then mapSet acc.projectIDs pid ((mapGet acc.projectIDs pid).getD 0 + 1)
      else acc.projectIDs
    | none => acc.projectIDs
  { projectIDs := counts,
    markerGroups := addToGroups acc.markerGroups coordKey survey.properties }

/-- The whole `surveys.forEach` loop, starting from the empty map and object. -/
def processSurveys (surveys : List Survey) : SurveyAccum :=
  surveys.foldl surveyStep { projectIDs := [], markerGroups := [] }

/-- The per-survey detail record built for the callout. -/
structure SurveyDetail where
  projectName : String
  localityDetails : String
  startDate : String
  endDate : String
  siteCode : String
  precision : Int
deriving DecidableEq, Repr

/-- Projection of `properties` onto the detail record. -/
def toDetail (p : SurveyProperties) : SurveyDetail :=
  { projectName := p.ProjectName
    localityDetails := p.LocalityDetails
    startDate := p.StartDate
    endDate := p.EndDate
    siteCode := p.SiteCode
    precision := p.LocationPrecision }

/-- A marker handed to the map: the group spread together with the derived
`surveyDetails`. -/
structure SurveyMarker where
  coordinate : Coordinate
  surveys : List SurveyProperties
  surveyDetails : List SurveyDetail
deriving DecidableEq, Repr

/-- `Object.values(markerGroups).map((group) => ({...group, surveyDetails:
group.surveys.map(...)}))`. -/
def surveyMarkersOf (surveys : List Survey) : List SurveyMarker :=
  (processSurveys surveys).markerGroups.map (fun g =>
    { coordinate := g.2.coordinate
      surveys := g.2.surveys
      surveyDetails := g.2.surveys.map toDetail })

/-! ### Metadata normalization, annotation and ordering -/

/-- `Array.isArray(metadata) ? metadata : [metadata]` (V1): an absent field is
wrapped as the one-element list `[none]`, a single object as `[some m]`, and
an array is kept in response order. -/
def normalizeMetadataField (md : MetadataField) : List (Option ProjectMetadata) :=
  match md with
  | .absent => [none]
  | .single m => [some m]
  | .array ms => ms.map some

/-- `{...project, surveyCount: surveyCounts.get(project.Project.ProjectID) || 0}`. -/
def annotateMetadata (surveyCounts : List (Nat × Nat)) (m : ProjectMetadata) :
    CombinedMetadata :=
  { toProjectMetadata := m
    surveyCount := (mapGet surveyCounts m.Project.ProjectID).getD 0 }

/-- The `combinedMetadata` expression of V2's `fetchProjectsMetadata`: an array
is mapped in order, a single object is wrapped, and an absent field makes the
single-object branch evaluate `metadata.Project.ProjectID` on `undefined`,
which throws a TypeError (modelled as `Except.error`). -/
def combineV2 (md : MetadataField) (surveyCounts : List (Nat × Nat)) :
    Except Unit (List CombinedMetadata) :=
  match md with
  | .array ms => .ok (ms.map (annotateMetadata surveyCounts))
  | .single m => .ok [annotateMetadata surveyCounts m]
  | .absent => .error ()

/-- The ordering used by V3's comparator
`(a, b) => new Date(b.LastLoadDate) - new Date(a.LastLoadDate)`:
`a` sorts no later than `b` when `b`'s date is at most `a`'s. -/
def byDateDesc (a b : ProjectMetadata) : Prop :=
  b.LastLoadDate ≤ a.LastLoadDate

instance : DecidableRel byDateDesc :=
  fun a b => inferInstanceAs (Decidable (b.LastLoadDate ≤ a.LastLoadDate))

instance : IsTotal ProjectMetadata byDateDesc :=
  ⟨fun a b => Nat.le_total b.LastLoadDate a.LastLoadDate⟩

instance : IsTrans ProjectMetadata byDateDesc :=
  ⟨fun _ _ _ hab hbc => Nat.le_trans hbc hab⟩

/-- `metadata.sort((a, b) => new Date(b.LastLoadDate) - new Date(a.LastLoadDate))`:
`Array.prototype.sort` is stable, so it is the stable descending sort by
`LastLoadDate`, modelled by insertion sort. -/
def sortMetadata (ms : List ProjectMetadata) : List ProjectMetadata :=
  List.insertionSort byDateDesc ms

/-! ### Autocomplete -/

/-- The ordering used by V2's suggestion comparator
`(a, b) => a.ScientificName.localeCompare(b.ScientificName)`, modelled by the
string order on scientific names. -/
def nameLE (a b : SpeciesItem) : Prop :=
  a.ScientificName ≤ b.ScientificName

instance : DecidableRel nameLE :=
  fun a b => inferInstanceAs (Decidable (a.ScientificName ≤ b.ScientificName))

instance : IsTotal SpeciesItem nameLE :=
  ⟨fun a b => le_total a.ScientificName b.ScientificName⟩

instance : IsTrans SpeciesItem nameLE :=
  ⟨fun _ _ _ hab hbc => le_trans hab hbc⟩

/-- `species.sort((a, b) => a.ScientificName.localeCompare(b.ScientificName))`,
a stable ascending sort by scientific name. -/
def sortByScientificName (species : List SpeciesItem) : List SpeciesItem :=
  List.insertionSort nameLE species

/-- V1's `fetchSuggestions` body: the suggestions state after one completed
call, as a function of the input, the response and the previous state.
Empty input returns early; a failed call only logs; otherwise the `Species`
collection (or `[]`) is stored unsorted. -/
def fetchSuggestionsResultV1 (input : String) (resp : Except Unit SpeciesResponse)
    (prev : List SpeciesItem) : List SpeciesItem :=
  if input = "" then prev
  else
    match resp with
    | .error _ => prev
    | .ok r => r.Species.getD []

/-- V2's `fetchSuggestions` body: as V1, but the collection is sorted by
scientific name before it is stored. -/
def fetchSuggestionsResultV2 (input : String) (resp : Except Unit SpeciesResponse)
    (prev : List SpeciesItem) : List SpeciesItem :=
  if input = "" then prev
  else
    match resp with
    | .error _ => prev
    | .ok r => sortByScientificName (r.Species.getD [])

/-- Event semantics of V1's `debounce(func, delay)` closure over a sequence of
keystrokes given as (arrival time, input text) pairs with nondecreasing
times: each keystroke clears the pending timer and schedules `func` at its
own time plus `delay`; the timer fires only when the next keystroke arrives
no earlier than the deadline (or there is none).  The result is the list of
inputs `func` is actually invoked with, in firing order. -/
def debounceCalls (delay : Nat) (keys : List (Nat × String)) : List String :=
  match keys with
  | [] => []
  | [(_, s)] => [s]
  | (t1, s1) :: (t2, s2) :: rest =>
    if t2 < t1 + delay then debounceCalls delay ((t2, s2) :: rest)
    else s1 :: debounceCalls delay ((t2, s2) :: rest)

/-- The outbound speciessearch calls V1's debounced autocomplete issues for a
keystroke sequence: the debounced function returns early on an empty input
(`if (!input) return`), so only nonempty fired inputs reach axios. -/
def autocompleteCallsV1 (delay : Nat) (keys : List (Nat × String)) : List String :=
  (debounceCalls delay keys).filter (fun s => s ≠ "")

/-- The outbound speciessearch calls V2's `handleInputChange` issues for a
keystroke sequence: `fetchSuggestions` is not debounced, so every keystroke
whose text does not trim to the empty string issues a call immediately
(the trimmed text is empty exactly when every character is whitespace). -/
def handleInputCallsV2 (inputs : List String) : List String :=
  inputs.filter (fun t => !(t.toList.all (fun c => c.isWhitespace)))

/-! ### The three pipeline variants

Each `fetch...` function is the body of the corresponding async handler,
expressed as a function of the user inputs, the previous component state and
a service giving each remote call's outcome.  It returns the component state
after the run together with the list of requests the run actually issued, in
issue order. -/

/-- The generic message of V1's and V3's catch block. -/
def fetchDataErrorMsg : String :=
  "An error occurred while fetching data. Please try again."

/-- The generic message of V2's `fetchSurveys` catch block. -/
def surveyDataErrorMsg : String :=
  "An error occurred while fetching survey data. Please try again."

/-- V2's empty-surveys message. -/
def noSurveysMsg : String :=
  "No surveys found for the selected radius. Try increasing the radius."

/-- The stage-1 empty-result message of V1 and V3. -/
def noKeywordResultsMsg (keyword : String) : String :=
  "No results found for keyword: " ++ keyword

/-- V3's empty-intersection message. -/
def noAreaResultsMsg (keyword : String) (radius : Nat) : String :=
  "No results found for keyword: " ++ keyword ++ " within " ++ toString radius ++
    " meters. Try increasing the radius."

/-- V3's absent-metadata message. -/
def noMetadataMsg : String :=
  "No metadata found for projects."

/-- A marker of V1's map. -/
structure MarkerV1 where
  id : Nat
  coordinate : Coordinate
  title : String
  description : String
deriving DecidableEq, Repr

/-- The component state V1's `fetchProjects` touches. -/
structure V1State where
  errorMsg : Option String
  projectMetadata : List (Option ProjectMetadata)
  markers : List MarkerV1
deriving DecidableEq, Repr

/-- The remote operations V1's `fetchProjects` consumes. -/
structure V1Service where
  projectSearch : String → Except Unit ProjectsResponse
  getSurveys : List Nat → CircleParam → Except Unit SurveysResponse
  getProjectsMetadata : List Nat → Except Unit MetadataField

/-- V1's `fetchProjects`: project search by keyword, surveys inside the
circle for marker display, then metadata fetched with the full stage-1 id
list (`projectIDs.join(',')`, not the circle-filtered ids). -/
def fetchProjectsV1 (selectedKeyword : String) (location : Coordinate) (radius : Nat)
    (svc : V1Service) (_prev : V1State) : V1State × List Request :=
  let s0 : V1State := { errorMsg := none, projectMetadata := [], markers := [] }
  let req1 := Request.projectSearch selectedKeyword
  match svc.projectSearch selectedKeyword with
  | .error _ => ({ s0 with errorMsg := some fetchDataErrorMsg }, [req1])
  | .ok r1 =>
    let projectIDs := projectIDsOf r1
    if projectIDs = [] then
      ({ s0 with errorMsg := some (noKeywordResultsMsg selectedKeyword) }, [req1])
    else
      let circle : CircleParam :=
        { latitude := location.latitude, longitude := location.longitude, radius := radius }
      let req2 := Request.getSurveys projectIDs circle
      match svc.getSurveys projectIDs circle with
      | .error _ => ({ s0 with errorMsg := some fetchDataErrorMsg }, [req1, req2])
      | .ok r2 =>
        let surveys := r2.features.getD []
        let newMarkers := surveys.map (fun survey =>
          { id := survey.id
            coordinate := { latitude := survey.geometry.coordinates.2,
                            longitude := survey.geometry.coordinates.1 }
            title := survey.properties.ProjectName
            description := survey.properties.LocalityDetails })
        let s1 := { s0 with markers := newMarkers }
        let req3 := Request.getProjectsMetadata projectIDs
        match svc.getProjectsMetadata projectIDs with
        | .error _ => ({ s1 with errorMsg := some fetchDataErrorMsg }, [req1, req2, req3])
        | .ok md => ({ s1 with projectMetadata := normalizeMetadataField md }, [req1, req2, req3])

/-- The component state V2's species pipeline touches. -/
structure V2State where
  errorMsg : Option String
  surveyData : List Survey
  projectMetadata : List CombinedMetadata
  markers : List SurveyMarker
deriving DecidableEq, Repr

/-- The remote operations V2's species pipeline consumes. -/
structure V2Service where
  getSurveysBySpecies : Nat → CircleParam → Except Unit SurveysResponse
  getProjectsMetadata : List Nat → Except Unit MetadataField

/-- V2's `fetchProjectsMetadata`: its own try/catch only logs on failure, so a
transport error — or the TypeError thrown by the absent-metadata branch —
leaves the state untouched and surfaces no message. -/
def fetchProjectsMetadataV2 (projectIDs : List Nat) (surveyCounts : List (Nat × Nat))
    (svc : V2Service) (state : V2State) : V2State :=
  match svc.getProjectsMetadata projectIDs with
  | .error _ => state
  | .ok md =>
    match combineV2 md surveyCounts with
    | .error _ => state
    | .ok combined => { state with projectMetadata := combined }

/-- V2's `fetchSurveys`: surveys by species inside the circle, grouping and
per-project counting, then the metadata call with the map's key list. -/
def fetchSurveysV2 (taxonId : Nat) (location : Coordinate) (radius : Nat)
    (svc : V2Service) (prev : V2State) : V2State × List Request :=
  if taxonId = 0 then (prev, [])
  else
    let s0 : V2State := { prev with errorMsg := none, surveyData := [], markers := [] }
    let circle : CircleParam :=
      { latitude := location.latitude, longitude := location.longitude, radius := radius }
    let req1 := Request.getSurveysBySpecies taxonId circle
    match svc.getSurveysBySpecies taxonId circle with
    | .error _ => ({ s0 with errorMsg := some surveyDataErrorMsg }, [req1])
    | .ok r =>
      let surveys := r.features.getD []
      if surveys = [] then
        ({ s0 with errorMsg := some noSurveysMsg, projectMetadata := [], markers := [] }, [req1])
      else
        let acc := processSurveys surveys
        let s1 := { s0 with markers := surveyMarkersOf surveys }
        let ids := acc.projectIDs.map (fun e => e.1)
        let req2 := Request.getProjectsMetadata ids
        (fetchProjectsMetadataV2 ids acc.projectIDs svc s1, [req1, req2])

/-- The component state V3's `fetchProjects` touches. -/
structure V3State where
  errorMsg : Option String
  projectMetadata : List ProjectMetadata
  keywordProjectCount : Nat
  areaProjectCount : Nat
deriving DecidableEq, Repr

/-- The remote operations V3's `fetchProjects` consumes. -/
structure V3Service where
  projectSearch : String → Except Unit ProjectsResponse
  getProjects : CircleParam → Except Unit ProjectsResponse
  getProjectsMetadata : List Nat → Except Unit MetadataField

/-- V3's `fetchProjects`: project search by keyword, projects inside the
circle intersected with the stage-1 ids (`projectIDs.includes(...)`), then
metadata fetched with the surviving ids only and sorted by `LastLoadDate`
descending when it is an array. -/
def fetchProjectsV3 (keyword : String) (location : Coordinate) (radius : Nat)
    (svc : V3Service) (prev : V3State) : V3State × List Request :=
  let s0 : V3State := { prev with errorMsg := none }
  let req1 := Request.projectSearch keyword
  match svc.projectSearch keyword with
  | .error _ => ({ s0 with errorMsg := some fetchDataErrorMsg }, [req1])
  | .ok r1 =>
    let projectIDs := projectIDsOf r1
    let s1 := { s0 with keywordProjectCount := projectIDs.length }
    if projectIDs = [] then
      ({ s1 with errorMsg := some (noKeywordResultsMsg keyword) }, [req1])
    else
      let circle : CircleParam :=
        { latitude := location.latitude, longitude := location.longitude, radius := radius }
      let req2 := Request.getProjects circle
      match svc.getProjects circle with
      | .error _ => ({ s1 with errorMsg := some fetchDataErrorMsg }, [req1, req2])
      | .ok r2 =>
        let filteredProjects :=
          (r2.Project.getD []).filter (fun project => projectIDs.contains project.ProjectID)
        let s2 := { s1 with areaProjectCount := filteredProjects.length }
        if filteredProjects = [] then
          ({ s2 with errorMsg := some (noAreaResultsMsg keyword radius) }, [req1, req2])
        else
          let filteredProjectIDs := filteredProjects.map (fun project => project.ProjectID)
          let req3 := Request.getProjectsMetadata filteredProjectIDs
          match svc.getProjectsMetadata filteredProjectIDs with
          | .error _ => ({ s2 with errorMsg := some fetchDataErrorMsg }, [req1, req2, req3])
          | .ok .absent => ({ s2 with errorMsg := some noMetadataMsg }, [req1, req2, req3])
          | .ok (.single m) => ({ s2 with projectMetadata := [m] }, [req1, req2, req3])
          | .ok (.array ms) =>
            ({ s2 with projectMetadata := sortMetadata ms }, [req1, req2, req3])

/-- The distinct elements of a list in order of first occurrence; used to
state the first-seen ordering of the coordinate groups. -/
def firstSeen {α : Type} [DecidableEq α] : List α → List α
  | [] => []
  | k :: ks => k :: (firstSeen ks).filter (fun x => x ≠ k)

/-- The count component of one `forEach` iteration, taken alone. -/
def countStep (m : List (Nat × Nat)) (survey : Survey) : List (Nat × Nat) :=
  match survey.properties.ProjectID with
  | some pid =>
    if pid ≠ 0 then mapSet m pid ((mapGet m pid).getD 0 + 1) else m
  | none => m

/-- The grouping component of one `forEach` iteration, taken alone. -/
def groupStep (gs : List ((Int × Int) × MarkerGroup)) (survey : Survey) :
    List ((Int × Int) × MarkerGroup) :=
  addToGroups gs (coordKeyOf survey) survey.properties

/-! ### Concrete data used to evaluate the definitions -/

/-- The fallback coordinate of the apps, used as a concrete search origin. -/
def defaultLoc : Coordinate := { latitude := -17, longitude := 146 }

/-- An empty V1 component state. -/
def emptyV1State : V1State := { errorMsg := none, projectMetadata := [], markers := [] }

/-- An empty V2 component state. -/
def emptyV2State : V2State :=
  { errorMsg := none, surveyData := [], projectMetadata := [], markers := [] }

/-- An empty V3 component state. -/
def emptyV3State : V3State :=
  { errorMsg := none, projectMetadata := [], keywordProjectCount := 0, areaProjectCount := 0 }

/-- A survey feature of project 101 inside the search circle. -/
def c1Survey : Survey :=
  { id := 7
    geometry := { coordinates := (146, -17) }
    properties := { ProjectID := some 101, ProjectName := "Koala Count",
                    LocalityDetails := "QLD", StartDate := "2020", EndDate := "2021",
                    SiteCode := "K1", LocationPrecision := 100 } }

/-- A V1 service run: the keyword matches projects 101 and 102, but the circle
query returns surveys of project 101 only. -/
def c1Svc : V1Service :=
  { projectSearch := fun _ => .ok { Project := some [{ ProjectID := 101 }, { ProjectID := 102 }] }
    getSurveys := fun _ _ => .ok { features := some [c1Survey] }
    getProjectsMetadata := fun _ => .ok (.array []) }

/-- A V3 service run: the keyword matches 101 and 102, the circle holds 101
and 999, so only 101 survives the intersection. -/
def c1SvcV3 : V3Service :=
  { projectSearch := fun _ => .ok { Project := some [{ ProjectID := 101 }, { ProjectID := 102 }] }
    getProjects := fun _ => .ok { Project := some [{ ProjectID := 101 }, { ProjectID := 999 }] }
    getProjectsMetadata := fun _ => .ok (.array []) }

/-- A survey point whose `ProjectID` property is the number 0, which the guard
`if (projectID)` treats as falsy. -/
def c2Survey : Survey :=
  { id := 1
    geometry := { coordinates := (146, -17) }
    properties := { ProjectID := some 0, ProjectName := "Zero", LocalityDetails := "L",
                    StartDate := "2020", EndDate := "2021", SiteCode := "S",
                    LocationPrecision := 100 } }

/-- A metadata record whose project id is the same number 0. -/
def c2Meta : ProjectMetadata :=
  { Project := { ProjectID := 0, Name := "Zero" }, Abstract := "A", LastLoadDate := 5 }

/-- Survey at coordinate (10, 10) with project id 55. -/
def c3Survey1 : Survey :=
  { id := 1
    geometry := { coordinates := (10, 10) }
    properties := { ProjectID := some 55, ProjectName := "P55", LocalityDetails := "L1",
                    StartDate := "2020", EndDate := "2021", SiteCode := "S1",
                    LocationPrecision := 100 } }

/-- A second survey at the same coordinate (10, 10), same project id. -/
def c3Survey2 : Survey :=
  { id := 2
    geometry := { coordinates := (10, 10) }
    properties := { ProjectID := some 55, ProjectName := "P55", LocalityDetails := "L2",
                    StartDate := "2020", EndDate := "2021", SiteCode := "S2",
                    LocationPrecision := 100 } }

/-- A third survey at a different coordinate (20, 20), same project id. -/
def c3Survey3 : Survey :=
  { id := 3
    geometry := { coordinates := (20, 20) }
    properties := { ProjectID := some 55, ProjectName := "P55", LocalityDetails := "L3",
                    StartDate := "2020", EndDate := "2021", SiteCode := "S3",
                    LocationPrecision := 100 } }

/-- The spec's example: three survey points across two distinct coordinates,
all of project 55. -/
def c3Surveys : List Survey := [c3Survey1, c3Survey2, c3Survey3]

/-- The first expected marker group of the example: coordinate (10, 10) with
the two matching survey records in input order. -/
def c3Marker1 : SurveyMarker :=
  { coordinate := { latitude := 10, longitude := 10 }
    surveys := [c3Survey1.properties, c3Survey2.properties]
    surveyDetails := [toDetail c3Survey1.properties, toDetail c3Survey2.properties] }

/-- A metadata record for project 55, matching the example surveys. -/
def c3Meta55 : ProjectMetadata :=
  { Project := { ProjectID := 55, Name := "P55" }, Abstract := "A", LastLoadDate := 1 }

/-- A V3 service whose project search finds nothing for the keyword. -/
def c5SvcV3 : V3Service :=
  { projectSearch := fun _ => .ok { Project := none }
    getProjects := fun _ => .error ()
    getProjectsMetadata := fun _ => .error () }

/-- A V1 service whose project search finds nothing for the keyword. -/
def c5SvcV1 : V1Service :=
  { projectSearch := fun _ => .ok { Project := none }
    getSurveys := fun _ _ => .error ()
    getProjectsMetadata := fun _ => .error () }

/-- A V3 service where the keyword matches 101 and 102 but the circle holds
only the unrelated project 999. -/
def c6Svc : V3Service :=
  { projectSearch := fun _ => .ok { Project := some [{ ProjectID := 101 }, { ProjectID := 102 }] }
    getProjects := fun _ => .ok { Project := some [{ ProjectID := 999 }] }
    getProjectsMetadata := fun _ => .ok (.array []) }

/-- Two species suggestions that are out of order by scientific name. -/
def c8ItemB : SpeciesItem :=
  { ScientificName := "Petaurus breviceps", AcceptedCommonName := "Sugar Glider",
    TaxonID := 1, SpeciesID := 1, SpeciesName := "Petaurus breviceps" }

/-- The suggestion that should sort first. -/
def c8ItemA : SpeciesItem :=
  { ScientificName := "Acanthiza pusilla", AcceptedCommonName := "Brown Thornbill",
    TaxonID := 2, SpeciesID := 2, SpeciesName := "Acanthiza pusilla" }

/-- A survey feature of project 55 for the V2 pipeline. -/
def c9Survey : Survey :=
  { id := 9
    geometry := { coordinates := (146, -17) }
    properties := { ProjectID := some 55, ProjectName := "P55", LocalityDetails := "L",
                    StartDate := "2020", EndDate := "2021", SiteCode := "S",
                    LocationPrecision := 100 } }

/-- A V2 service whose surveys call succeeds but whose metadata call fails in
transport. -/
def c9Svc : V2Service :=
  { getSurveysBySpecies := fun _ _ => .ok { features := some [c9Survey] }
    getProjectsMetadata := fun _ => .error () }

/-- A V3 service failing at stage 1. -/
def v3FailS1Svc : V3Service :=
  { projectSearch := fun _ => .error ()
    getProjects := fun _ => .error ()
    getProjectsMetadata := fun _ => .error () }

/-- A V3 service failing at the circle query. -/
def v3FailS2Svc : V3Service :=
  { projectSearch := fun _ => .ok { Project := some [{ ProjectID := 101 }] }
    getProjects := fun _ => .error ()
    getProjectsMetadata := fun _ => .error () }

/-- A V3 service failing at the metadata call. -/
def v3FailS3Svc : V3Service :=
  { projectSearch := fun _ => .ok { Project := some [{ ProjectID := 101 }] }
    getProjects := fun _ => .ok { Project := some [{ ProjectID := 101 }] }
    getProjectsMetadata := fun _ => .error () }

/-- A V1 service failing at stage 1. -/
def v1FailSvc : V1Service :=
  { projectSearch := fun _ => .error ()
    getSurveys := fun _ _ => .error ()
    getProjectsMetadata := fun _ => .error () }

/-- A V1 service failing at the surveys call. -/
def v1FailS2Svc : V1Service :=
  { projectSearch := fun _ => .ok { Project := some [{ ProjectID := 101 }] }
    getSurveys := fun _ _ => .error ()
    getProjectsMetadata := fun _ => .error () }

/-- A V1 service failing at the metadata call. -/
def v1FailS3Svc : V1Service :=
  { projectSearch := fun _ => .ok { Project := some [{ ProjectID := 101 }] }
    getSurveys := fun _ _ => .ok { features := some [c1Survey] }
    getProjectsMetadata := fun _ => .error () }

/-- A V2 service failing at the surveys call. -/
def v2FailSurveySvc : V2Service :=
  { getSurveysBySpecies := fun _ _ => .error ()
    getProjectsMetadata := fun _ => .error () }

/-! ### Stability of the date sort -/

/-- Inserting a record into any list commutes with filtering by an exact date:
elements placed in front of the inserted record all have strictly later
dates. -/
theorem filter_orderedInsert_date (a : ProjectMetadata) (l : List ProjectMetadata) (d : Nat) :
    (List.orderedInsert byDateDesc a l).filter (fun m => m.LastLoadDate = d) =
      if a.LastLoadDate = d then a :: l.filter (fun m => m.LastLoadDate = d)
      else l.filter (fun m => m.LastLoadDate = d) := by
  induction l with
  | nil =>
    by_cases h : a.LastLoadDate = d <;> simp [List.orderedInsert, h]
  | cons b t ih =>
    rw [List.orderedInsert]
    by_cases hr : byDateDesc a b
    · rw [if_pos hr]
      by_cases ha : a.LastLoadDate = d <;> simp [List.filter_cons, ha]
    · rw [if_neg hr]
      have hlt : a.LastLoadDate < b.LastLoadDate := Nat.lt_of_not_le hr
      by_cases hb : b.LastLoadDate = d
      · have ha : ¬ a.LastLoadDate = d := by omega
        simp [List.filter_cons, hb, ha, ih]
      · by_cases ha : a.LastLoadDate = d <;> simp [List.filter_cons, hb, ha, ih]

/-- The date sort is stable: filtering the sorted list by any exact date gives
the same records in the same order as filtering the input. -/
theorem filter_sortMetadata (ms : List ProjectMetadata) (d : Nat) :
    (sortMetadata ms).filter (fun m => m.LastLoadDate = d) =
      ms.filter (fun m => m.LastLoadDate = d) := by
  induction ms with
  | nil => rfl
  | cons a t ih =>
    rw [sortMetadata, List.insertionSort, filter_orderedInsert_date]
    rw [sortMetadata] at ih
    by_cases ha : a.LastLoadDate = d <;> simp [List.filter_cons, ha, ih]

/-- C4: metadata normalization maps a single-object response to a one-element
sequence (in both the V1/V3 wrapping and the V2 annotation), keeps a
collection response in the response's order in V1 and V2, and in the
keyword-only variant V3 reorders the collection by LastLoadDate descending
with ties kept in input order (a stable sort): the sorted list is a
permutation of the input, is sorted under `byDateDesc`, and filtering by any
exact date preserves the input's order. -/
theorem metadata_normalization_order :
    (∀ m : ProjectMetadata, normalizeMetadataField (.single m) = [some m]) ∧
    (∀ (m : ProjectMetadata) (counts : List (Nat × Nat)),
      combineV2 (.single m) counts = .ok [annotateMetadata counts m]) ∧
    (∀ ms : List ProjectMetadata, normalizeMetadataField (.array ms) = ms.map some) ∧
    (∀ (ms : List ProjectMetadata) (counts : List (Nat × Nat)),
      combineV2 (.array ms) counts = .ok (ms.map (annotateMetadata counts))) ∧
    (∀ ms : List ProjectMetadata,
      List.Perm (sortMetadata ms) ms ∧
      List.Sorted byDateDesc (sortMetadata ms) ∧
      ∀ d : Nat, (sortMetadata ms).filter (fun m => m.LastLoadDate = d) =
        ms.filter (fun m => m.LastLoadDate = d)) := by
  refine ⟨fun m => rfl, fun m counts => rfl, fun ms => rfl, fun ms counts => rfl,
    fun ms => ⟨?_, ?_, fun d => filter_sortMetadata ms d⟩⟩
  · exact List.perm_insertionSort byDateDesc ms
  · exact List.sorted_insertionSort byDateDesc ms

/-- C10: when the metadata response carries no `ProjectMetadata` field, V1's
normalization `Array.isArray(metadata) ? metadata : [metadata]` produces the
one-element sequence holding the absent value rather than an empty sequence,
and V2's single-object branch dereferences `metadata.Project.ProjectID` on
that absent value, which throws. -/
theorem absent_metadata_unsafe :
    normalizeMetadataField .absent = [none] ∧
    normalizeMetadataField .absent ≠ ([] : List (Option ProjectMetadata)) ∧
    combineV2 .absent [] = .error () := by
  refine ⟨rfl, ?_, rfl⟩
  simp [normalizeMetadataField]

/-! ### Debounced autocomplete -/

/-- When every keystroke of a nonempty sequence arrives before the previous
keystroke's timer deadline, only the last keystroke's timer fires. -/
theorem debounce_single_fire (delay : Nat) (keys : List (Nat × String)) (t : Nat) (s : String)
    (hlast : keys.getLast? = some (t, s))
    (hchain : List.Chain' (fun a b : Nat × String => b.1 < a.1 + delay) keys) :
    debounceCalls delay keys = [s] := by
  induction keys with
  | nil => simp at hlast
  | cons k1 rest ih =>
    cases rest with
    | nil =>
      simp only [List.getLast?_singleton, Option.some.injEq] at hlast
      subst hlast
      rfl
    | cons k2 rest2 =>
      have h12 : k2.1 < k1.1 + delay := (List.chain'_cons.mp hchain).1
      have hrest : List.Chain' (fun a b : Nat × String => b.1 < a.1 + delay) (k2 :: rest2) :=
        (List.chain'_cons.mp hchain).2
      have hlast2 : (k2 :: rest2).getLast? = some (t, s) := by
        rw [← hlast, List.getLast?_cons_cons]
      have := ih hlast2 hrest
      cases k1 with
      | mk t1 s1 =>
        cases k2 with
        | mk t2 s2 =>
          rw [debounceCalls, if_pos h12]
          exact this

/-- C7 amended: V1's debounced autocomplete issues exactly one outbound
speciessearch call for any nonempty keystroke sequence whose gaps all stay
below the debounce delay, keyed on the latest (nonempty) input; the
undebounced V2 handler instead issues one call per non-blank keystroke (see
the counterexample), so the single-call guarantee holds only for the
debounced variant. -/
theorem debounced_autocomplete_single_call (delay : Nat) (keys : List (Nat × String))
    (t : Nat) (s : String) (hlast : keys.getLast? = some (t, s))
    (hchain : List.Chain' (fun a b : Nat × String => b.1 < a.1 + delay) keys)
    (hs : s ≠ "") :
    autocompleteCallsV1 delay keys = [s] := by
  rw [autocompleteCallsV1, debounce_single_fire delay keys t s hlast hchain]
  simp [hs]

/-- Witness for the amended C7: keystrokes "k", "ko", "koa" at times 0, 100,
200 with a 300ms delay produce the single call "koa". -/
theorem debounced_autocomplete_single_call_witness :
    autocompleteCallsV1 300 [(0, "k"), (100, "ko"), (200, "koa")] = ["koa"] :=
  debounced_autocomplete_single_call 300 [(0, "k"), (100, "ko"), (200, "koa")] 200 "koa"
    (by decide) (by simp [List.chain'_cons]) (by decide)

/-- C7 counterexample: V2's `handleInputChange` calls `fetchSuggestions`
directly on every keystroke, so the rapid sequence "k", "ko", "koa" issues
three outbound calls, not one. -/
theorem undebounced_autocomplete_calls_each_keystroke :
    handleInputCallsV2 ["k", "ko", "koa"] = ["k", "ko", "koa"] ∧
    (handleInputCallsV2 ["k", "ko", "koa"]).length ≠ 1 := by
  constructor <;> decide

/-! ### Suggestion sorting -/

/-- C8 amended: V2's autocomplete sorts every successfully fetched suggestion
collection by scientific name (the result is ordered under `nameLE` and is a
permutation of the response's collection); V1 stores the response unsorted
(see the counterexample), so the sortedness contract holds only for the
second variant. -/
theorem v2_suggestions_sorted (input : String) (r : SpeciesResponse)
    (prev : List SpeciesItem) (h : input ≠ "") :
    List.Sorted nameLE (fetchSuggestionsResultV2 input (.ok r) prev) ∧
    List.Perm (fetchSuggestionsResultV2 input (.ok r) prev) (r.Species.getD []) := by
  rw [fetchSuggestionsResultV2, if_neg h]
  exact ⟨List.sorted_insertionSort nameLE _, List.perm_insertionSort nameLE _⟩

/-- Witness for the amended C8 at a concrete unsorted response. -/
theorem v2_suggestions_sorted_witness :
    List.Sorted nameLE
      (fetchSuggestionsResultV2 "koa" (.ok { Species := some [c8ItemB, c8ItemA] }) []) ∧
    List.Perm (fetchSuggestionsResultV2 "koa" (.ok { Species := some [c8ItemB, c8ItemA] }) [])
      (({ Species := some [c8ItemB, c8ItemA] } : SpeciesResponse).Species.getD []) :=
  v2_suggestions_sorted "koa" { Species := some [c8ItemB, c8ItemA] } [] (by decide)

/-- C8 counterexample: V1's `fetchSuggestions` stores the response collection
as delivered, so an out-of-order response yields an unsorted suggestion
list. -/
theorem v1_suggestions_not_sorted :
    fetchSuggestionsResultV1 "koa" (.ok { Species := some [c8ItemB, c8ItemA] }) [] =
      [c8ItemB, c8ItemA] ∧
    ¬ List.Sorted nameLE
      (fetchSuggestionsResultV1 "koa" (.ok { Species := some [c8ItemB, c8ItemA] }) []) := by
  refine ⟨rfl, ?_⟩
  intro h
  have h2 : List.Sorted nameLE [c8ItemB, c8ItemA] := h
  have hrel : nameLE c8ItemB c8ItemA :=
    List.rel_of_sorted_cons h2 c8ItemA (List.mem_singleton.mpr rfl)
  rw [nameLE, String.le_iff_toList_le] at hrel
  exact absurd hrel (by decide)

/-! ### Per-project occurrence counts -/

/-- The two state components of the loop evolve independently. -/
theorem surveyStep_eq (acc : SurveyAccum) (s : Survey) :
    surveyStep acc s = { projectIDs := countStep acc.projectIDs s,
                         markerGroups := groupStep acc.markerGroups s } := by
  cases h : s.properties.ProjectID <;> simp [surveyStep, countStep, groupStep, h]

/-- The loop over both components splits into the two independent folds. -/
theorem foldl_surveyStep_split (ss : List Survey) (acc : SurveyAccum) :
    ss.foldl surveyStep acc = { projectIDs := ss.foldl countStep acc.projectIDs,
                                markerGroups := ss.foldl groupStep acc.markerGroups } := by
  induction ss generalizing acc with
  | nil => rfl
  | cons s t ih =>
    rw [List.foldl_cons, surveyStep_eq, ih]
    simp [List.foldl_cons]

/-- The count map built by `processSurveys`. -/
theorem processSurveys_projectIDs (ss : List Survey) :
    (processSurveys ss).projectIDs = ss.foldl countStep [] := by
  rw [processSurveys, foldl_surveyStep_split]

/-- The marker groups built by `processSurveys`. -/
theorem processSurveys_markerGroups (ss : List Survey) :
    (processSurveys ss).markerGroups = ss.foldl groupStep [] := by
  rw [processSurveys, foldl_surveyStep_split]

/-- Reading back the key just written. -/
theorem mapGet_mapSet_self (m : List (Nat × Nat)) (k v : Nat) :
    mapGet (mapSet m k v) k = some v := by
  induction m with
  | nil => simp [mapGet, mapSet]
  | cons e es ih => by_cases h : e.1 = k <;> simp [mapGet, mapSet, h, ih]

/-- Writing one key leaves every other key unchanged. -/
theorem mapGet_mapSet_ne (m : List (Nat × Nat)) (k v j : Nat) (h : j ≠ k) :
    mapGet (mapSet m k v) j = mapGet m j := by
  have hkj : ¬ k = j := fun hh => h hh.symm
  induction m with
  | nil => simp [mapGet, mapSet, hkj]
  | cons e es ih => by_cases he : e.1 = k <;> simp [mapGet, mapSet, he, ih, hkj]

/-- Running the counting fold from any map adds, at every nonzero id, exactly
the number of surveys carrying that id. -/
theorem foldl_countStep_getD (pid : Nat) (hpid : pid ≠ 0) (ss : List Survey) :
    ∀ m : List (Nat × Nat),
      (mapGet (ss.foldl countStep m) pid).getD 0 =
        (mapGet m pid).getD 0 +
          (ss.filter (fun s => s.properties.ProjectID = some pid)).length := by
  induction ss with
  | nil => intro m; simp
  | cons s t ih =>
    intro m
    rw [List.foldl_cons]
    rcases h : s.properties.ProjectID with _ | q
    · have hstep : countStep m s = m := by simp [countStep, h]
      rw [hstep, ih]
      simp [List.filter_cons, h]
    · by_cases hq : q = 0
      · subst hq
        have hstep : countStep m s = m := by simp [countStep, h]
        rw [hstep, ih]
        have hne : ¬ s.properties.ProjectID = some pid := by simp [h, Ne.symm hpid]
        simp [List.filter_cons, hne]
      · have hstep : countStep m s = mapSet m q ((mapGet m q).getD 0 + 1) := by
          simp [countStep, h, hq]
        rw [hstep, ih]
        by_cases hqp : q = pid
        · subst hqp
          rw [mapGet_mapSet_self]
          have heq : s.properties.ProjectID = some q := h
          simp [List.filter_cons, heq]
          omega
        · rw [mapGet_mapSet_ne m q _ pid (fun hh => hqp hh.symm)]
          have hne : ¬ s.properties.ProjectID = some pid := by simp [h, hqp]
          simp [List.filter_cons, hne]

/-- C2 amended: for every nonzero project id, the stage-3 count map read with
default 0 gives exactly the number of survey points whose ProjectID equals
that id, and every combined metadata record with a nonzero project id is
annotated with exactly that number (0 when the id is absent from the map).
The number 0 itself — which the truthiness guard `if (projectID)` skips — is
the one excluded id (see the counterexample). -/
theorem survey_count_correct :
    (∀ (ss : List Survey) (pid : Nat), pid ≠ 0 →
      (mapGet (processSurveys ss).projectIDs pid).getD 0 =
        (ss.filter (fun s => s.properties.ProjectID = some pid)).length) ∧
    (∀ (ss : List Survey) (ms : List ProjectMetadata) (c : List CombinedMetadata),
      combineV2 (.array ms) (processSurveys ss).projectIDs = .ok c →
      ∀ m ∈ c, m.toProjectMetadata.Project.ProjectID ≠ 0 →
        m.surveyCount = (ss.filter (fun s =>
          s.properties.ProjectID = some m.toProjectMetadata.Project.ProjectID)).length) ∧
    (∀ (ss : List Survey) (md : ProjectMetadata) (c : List CombinedMetadata),
      combineV2 (.single md) (processSurveys ss).projectIDs = .ok c →
      ∀ m ∈ c, m.toProjectMetadata.Project.ProjectID ≠ 0 →
        m.surveyCount = (ss.filter (fun s =>
          s.properties.ProjectID = some m.toProjectMetadata.Project.ProjectID)).length) := by
  have hcount : ∀ (ss : List Survey) (pid : Nat), pid ≠ 0 →
      (mapGet (processSurveys ss).projectIDs pid).getD 0 =
        (ss.filter (fun s => s.properties.ProjectID = some pid)).length := by
    intro ss pid hpid
    rw [processSurveys_projectIDs]
    have h := foldl_countStep_getD pid hpid ss []
    simpa [mapGet] using h
  refine ⟨hcount, ?_, ?_⟩
  · intro ss ms c hc m hm hid
    rw [combineV2, Except.ok.injEq] at hc
    subst hc
    obtain ⟨m0, hm0, rfl⟩ := List.mem_map.mp hm
    exact hcount ss m0.Project.ProjectID hid
  · intro ss md c hc m hm hid
    rw [combineV2, Except.ok.injEq] at hc
    subst hc
    rw [List.mem_singleton] at hm
    subst hm
    exact hcount ss md.Project.ProjectID hid

/-- Witness for the amended C2: the spec's example — three survey points all
with project id 55 give occurrence count 3 and an annotation of 3. -/
theorem survey_count_correct_witness :
    (mapGet (processSurveys c3Surveys).projectIDs 55).getD 0 =
      (c3Surveys.filter (fun s => s.properties.ProjectID = some 55)).length ∧
    (annotateMetadata (processSurveys c3Surveys).projectIDs c3Meta55).surveyCount =
      (c3Surveys.filter (fun s => s.properties.ProjectID =
        some (annotateMetadata (processSurveys c3Surveys).projectIDs
          c3Meta55).toProjectMetadata.Project.ProjectID)).length :=
  ⟨(survey_count_correct.1 c3Surveys 55 (by decide)),
   (survey_count_correct.2.1 c3Surveys [c3Meta55] _ rfl
     (annotateMetadata (processSurveys c3Surveys).projectIDs c3Meta55)
     (List.mem_singleton.mpr rfl) (by decide))⟩

/-- C2 counterexample: a survey point whose ProjectID is the number 0 is
skipped by the truthiness guard, so the metadata record of project 0 is
annotated with surveyCount 0 although exactly one survey point carries that
id. -/
theorem zero_projectid_uncounted :
    combineV2 (.array [c2Meta]) (processSurveys [c2Survey]).projectIDs =
      .ok [{ toProjectMetadata := c2Meta, surveyCount := 0 }] ∧
    ([c2Survey].filter (fun s =>
      s.properties.ProjectID = some c2Meta.Project.ProjectID)).length = 1 := by
  constructor <;> rfl

/-! ### Grouping by coordinate key -/

/-- Membership in the first-seen list is membership in the list. -/
theorem mem_firstSeen {α : Type} [DecidableEq α] (l : List α) (x : α) :
    x ∈ firstSeen l ↔ x ∈ l := by
  induction l with
  | nil => simp [firstSeen]
  | cons a t ih =>
    by_cases hxa : x = a
    · subst hxa; simp [firstSeen]
    · simp [firstSeen, List.mem_filter, hxa, ih]

/-- The first-seen list has no duplicates. -/
theorem nodup_firstSeen {α : Type} [DecidableEq α] (l : List α) : (firstSeen l).Nodup := by
  induction l with
  | nil => simp [firstSeen]
  | cons a t ih =>
    rw [firstSeen, List.nodup_cons]
    refine ⟨fun hmem => ?_, ih.filter _⟩
    rw [List.mem_filter] at hmem
    simp at hmem

/-- The first-seen list is the deduplicated list up to permutation. -/
theorem firstSeen_perm_dedup {α : Type} [DecidableEq α] (l : List α) :
    List.Perm (firstSeen l) l.dedup := by
  rw [List.perm_ext_iff_of_nodup (nodup_firstSeen l) (List.nodup_dedup l)]
  intro x
  rw [mem_firstSeen, List.mem_dedup]

/-- Unfolding of `firstSeen` on a cons cell. -/
theorem firstSeen_cons {α : Type} [DecidableEq α] (a : α) (l : List α) :
    firstSeen (a :: l) = a :: (firstSeen l).filter (fun x => x ≠ a) := rfl

/-- Appending one element extends the first-seen list exactly when the element
is new. -/
theorem firstSeen_append {α : Type} [DecidableEq α] (l : List α) (k : α) :
    firstSeen (l ++ [k]) = if k ∈ l then firstSeen l else firstSeen l ++ [k] := by
  induction l with
  | nil => simp [firstSeen]
  | cons a t ih =>
    rw [List.cons_append, firstSeen_cons, ih, firstSeen_cons]
    by_cases hk : k ∈ t
    · rw [if_pos hk, if_pos (List.mem_cons_of_mem a hk)]
    · rw [if_neg hk]
      by_cases hka : k = a
      · subst hka
        rw [if_pos (List.mem_cons_self k t)]
        simp [List.filter_append]
      · rw [if_neg (by simp [hka, hk])]
        simp [List.filter_append, hka]

/-- Adding a survey under a key not present in the groups appends a fresh
group at the end. -/
theorem addToGroups_not_mem (groups : List ((Int × Int) × MarkerGroup)) (k : Int × Int)
    (p : SurveyProperties) (h : ∀ g ∈ groups, g.1 ≠ k) :
    addToGroups groups k p =
      groups ++ [(k, { coordinate := { latitude := k.1, longitude := k.2 },
                       surveys := [p] })] := by
  induction groups with
  | nil => rfl
  | cons g gs ih =>
    simp only [addToGroups]
    rw [if_neg (h g (List.mem_cons_self g gs)),
        ih (fun g0 hg0 => h g0 (List.mem_cons_of_mem g hg0)), List.cons_append]

/-- Adding a survey under a key already present in a keyed map of groups
appends the survey to exactly that key's group. -/
theorem addToGroups_mem_map (K : List (Int × Int)) (F : (Int × Int) → MarkerGroup)
    (k : Int × Int) (p : SurveyProperties) (hk : k ∈ K) (hnd : K.Nodup) :
    addToGroups (K.map (fun j => (j, F j))) k p =
      K.map (fun j => (j, if j = k then { F k with surveys := (F k).surveys ++ [p] }
                          else F j)) := by
  induction K with
  | nil => simp at hk
  | cons a t ih =>
    rw [List.map_cons, List.map_cons]
    simp only [addToGroups]
    by_cases hak : a = k
    · subst hak
      rw [if_pos rfl, if_pos rfl]
      have hnt : a ∉ t := (List.nodup_cons.mp hnd).1
      have hmap : t.map (fun j => (j, F j)) =
          t.map (fun j => (j, if j = a then { F a with surveys := (F a).surveys ++ [p] }
                              else F j)) := by
        apply List.map_congr_left
        intro j hj
        have hja : ¬ j = a := fun hja => hnt (hja ▸ hj)
        rw [if_neg hja]
      rw [← hmap]
    · rw [if_neg hak, if_neg hak]
      have hkt : k ∈ t := by
        rcases List.mem_cons.mp hk with h1 | h2
        · exact absurd h1.symm hak
        · exact h2
      rw [ih hkt (List.nodup_cons.mp hnd).2]

/-- Closed form of the grouping loop: the groups are exactly the distinct
coordinate keys in first-seen order, each paired with the properties of the
surveys at that key in input order. -/
theorem markerGroups_spec (ss : List Survey) :
    (processSurveys ss).markerGroups =
      (firstSeen (ss.map coordKeyOf)).map (fun j =>
        (j, { coordinate := { latitude := j.1, longitude := j.2 },
              surveys := (ss.filter (fun s => coordKeyOf s = j)).map
                (fun s => s.properties) })) := by
  rw [processSurveys_markerGroups]
  induction ss using List.reverseRecOn with
  | nil => rfl
  | append_singleton ss s ih =>
    rw [List.foldl_append, List.foldl_cons, List.foldl_nil, ih]
    have hstep : groupStep
        ((firstSeen (ss.map coordKeyOf)).map (fun j =>
          (j, { coordinate := { latitude := j.1, longitude := j.2 },
                surveys := (ss.filter (fun s => coordKeyOf s = j)).map
                  (fun s => s.properties) }))) s =
        addToGroups
          ((firstSeen (ss.map coordKeyOf)).map (fun j =>
            (j, { coordinate := { latitude := j.1, longitude := j.2 },
                  surveys := (ss.filter (fun s => coordKeyOf s = j)).map
                    (fun s => s.properties) })))
          (coordKeyOf s) s.properties := rfl
    rw [hstep, List.map_append]
    simp only [List.map_cons, List.map_nil]
    rw [firstSeen_append]
    by_cases hmem : coordKeyOf s ∈ ss.map coordKeyOf
    · rw [if_pos hmem]
      rw [addToGroups_mem_map _ _ _ _ ((mem_firstSeen _ _).mpr hmem)
          (nodup_firstSeen _)]
      apply List.map_congr_left
      intro j hj
      by_cases hjk : j = coordKeyOf s
      · subst hjk
        rw [if_pos rfl]
        simp [List.filter_append]
      · rw [if_neg hjk]
        have hsk : ¬ coordKeyOf s = j := fun hh => hjk hh.symm
        simp [List.filter_append, hsk]
    · rw [if_neg hmem]
      rw [addToGroups_not_mem _ _ _ ?hne]
      case hne =>
        intro g hg
        rw [List.mem_map] at hg
        obtain ⟨j, hj, rfl⟩ := hg
        intro hjk
        exact hmem (hjk ▸ (mem_firstSeen _ _).mp hj)
      rw [List.map_append]
      congr 1
      · apply List.map_congr_left
        intro j hj
        have hjk : ¬ coordKeyOf s = j := by
          intro hh
          exact hmem (hh ▸ (mem_firstSeen _ _).mp hj)
        simp [List.filter_append, hjk]
      · have hfil : ss.filter (fun s0 => coordKeyOf s0 = coordKeyOf s) = [] := by
          rw [List.filter_eq_nil_iff]
          intro a ha
          simp only [decide_eq_true_eq]
          intro hh
          exact hmem (hh ▸ List.mem_map_of_mem coordKeyOf ha)
        simp [List.filter_append, hfil]

/-- C3: grouping produces exactly one marker per distinct coordinate key (as
many markers as distinct keys), in first-seen order of the keys, and each
marker carries exactly the detail entries (and property records) of the
input points whose coordinate key matches its coordinate, in input order. -/
theorem survey_grouping_spec (ss : List Survey) :
    (surveyMarkersOf ss).map (fun m => (m.coordinate.latitude, m.coordinate.longitude)) =
      firstSeen (ss.map coordKeyOf) ∧
    (surveyMarkersOf ss).length = (ss.map coordKeyOf).dedup.length ∧
    ∀ m ∈ surveyMarkersOf ss,
      m.surveyDetails = (ss.filter (fun s =>
        coordKeyOf s = (m.coordinate.latitude, m.coordinate.longitude))).map
          (fun s => toDetail s.properties) ∧
      m.surveys = (ss.filter (fun s =>
        coordKeyOf s = (m.coordinate.latitude, m.coordinate.longitude))).map
          (fun s => s.properties) := by
  have hg := markerGroups_spec ss
  refine ⟨?_, ?_, ?_⟩
  · rw [surveyMarkersOf, hg, List.map_map, List.map_map]
    conv_rhs => rw [← List.map_id (firstSeen (ss.map coordKeyOf))]
    apply List.map_congr_left
    intro j hj
    rfl
  · rw [surveyMarkersOf, hg, List.length_map, List.length_map]
    exact (firstSeen_perm_dedup _).length_eq
  · intro m hm
    rw [surveyMarkersOf, hg, List.map_map, List.mem_map] at hm
    obtain ⟨j, hj, rfl⟩ := hm
    constructor
    · simp [List.map_map]
    · rfl

/-- Witness for C3: the spec's example — three survey points at coordinates
(10,10), (10,10), (20,20) yield two groups, and the first group carries the
detail entries of exactly the two matching points in input order. -/
theorem survey_grouping_spec_witness :
    (surveyMarkersOf c3Surveys).length = (c3Surveys.map coordKeyOf).dedup.length ∧
    c3Marker1.surveyDetails = (c3Surveys.filter (fun s =>
      coordKeyOf s = (c3Marker1.coordinate.latitude, c3Marker1.coordinate.longitude))).map
        (fun s => toDetail s.properties) :=
  ⟨(survey_grouping_spec c3Surveys).2.1,
   ((survey_grouping_spec c3Surveys).2.2 c3Marker1 (by decide)).1⟩

/-! ### Pipeline termination and request traces -/

/-- C5: whenever stage 1 succeeds with an empty project id list, both keyword
pipelines (V3 and V1) terminate with the "no results for keyword" message and
issue no further request: the run's trace is the single project search. -/
theorem empty_keyword_terminal :
    (∀ (kw : String) (loc : Coordinate) (radius : Nat) (svc : V3Service) (prev : V3State)
      (r1 : ProjectsResponse), svc.projectSearch kw = .ok r1 → projectIDsOf r1 = [] →
      (fetchProjectsV3 kw loc radius svc prev).1.errorMsg = some (noKeywordResultsMsg kw) ∧
      (fetchProjectsV3 kw loc radius svc prev).2 = [Request.projectSearch kw]) ∧
    (∀ (kw : String) (loc : Coordinate) (radius : Nat) (svc : V1Service) (prev : V1State)
      (r1 : ProjectsResponse), svc.projectSearch kw = .ok r1 → projectIDsOf r1 = [] →
      (fetchProjectsV1 kw loc radius svc prev).1.errorMsg = some (noKeywordResultsMsg kw) ∧
      (fetchProjectsV1 kw loc radius svc prev).2 = [Request.projectSearch kw]) := by
  constructor
  · intro kw loc radius svc prev r1 h1 h2
    simp [fetchProjectsV3, h1, h2]
  · intro kw loc radius svc prev r1 h1 h2
    simp [fetchProjectsV1, h1, h2]

/-- Witness for C5 at a concrete service whose project search returns no
`Project` collection. -/
theorem empty_keyword_terminal_witness :
    ((fetchProjectsV3 "Koala" defaultLoc 6000 c5SvcV3 emptyV3State).1.errorMsg =
      some (noKeywordResultsMsg "Koala") ∧
     (fetchProjectsV3 "Koala" defaultLoc 6000 c5SvcV3 emptyV3State).2 =
      [Request.projectSearch "Koala"]) ∧
    ((fetchProjectsV1 "Koala" defaultLoc 6000 c5SvcV1 emptyV1State).1.errorMsg =
      some (noKeywordResultsMsg "Koala") ∧
     (fetchProjectsV1 "Koala" defaultLoc 6000 c5SvcV1 emptyV1State).2 =
      [Request.projectSearch "Koala"]) :=
  ⟨empty_keyword_terminal.1 "Koala" defaultLoc 6000 c5SvcV3 emptyV3State
     { Project := none } rfl rfl,
   empty_keyword_terminal.2 "Koala" defaultLoc 6000 c5SvcV1 emptyV1State
     { Project := none } rfl rfl⟩

/-- C6: in V3, when stage 1 yields a nonempty id set but the circle filter's
intersection with it is empty, the run terminates with the "try increasing
the radius" message, the trace stops after the two performed calls, and no
metadata request is ever issued. -/
theorem empty_area_terminal (kw : String) (loc : Coordinate) (radius : Nat)
    (svc : V3Service) (prev : V3State) (r1 r2 : ProjectsResponse)
    (h1 : svc.projectSearch kw = .ok r1) (h2 : projectIDsOf r1 ≠ [])
    (h3 : svc.getProjects { latitude := loc.latitude, longitude := loc.longitude,
                            radius := radius } = .ok r2)
    (h4 : (r2.Project.getD []).filter
        (fun p => (projectIDsOf r1).contains p.ProjectID) = []) :
    (fetchProjectsV3 kw loc radius svc prev).1.errorMsg =
      some (noAreaResultsMsg kw radius) ∧
    (fetchProjectsV3 kw loc radius svc prev).2 =
      [Request.projectSearch kw,
       Request.getProjects { latitude := loc.latitude, longitude := loc.longitude,
                             radius := radius }] ∧
    ∀ L : List Nat,
      Request.getProjectsMetadata L ∉ (fetchProjectsV3 kw loc radius svc prev).2 := by
  have htrace : (fetchProjectsV3 kw loc radius svc prev).1.errorMsg =
      some (noAreaResultsMsg kw radius) ∧
      (fetchProjectsV3 kw loc radius svc prev).2 =
      [Request.projectSearch kw,
       Request.getProjects { latitude := loc.latitude, longitude := loc.longitude,
                             radius := radius }] := by
    simp only [fetchProjectsV3, h1, h3]
    rw [if_neg h2, if_pos h4]
    exact ⟨rfl, rfl⟩
  refine ⟨htrace.1, htrace.2, ?_⟩
  intro L
  rw [htrace.2]
  simp

/-- Witness for C6: the keyword matches projects 101 and 102, the circle
holds only 999, and the run stops with the radius message after two calls. -/
theorem empty_area_terminal_witness :
    (fetchProjectsV3 "Koala" defaultLoc 6000 c6Svc emptyV3State).1.errorMsg =
      some (noAreaResultsMsg "Koala" 6000) ∧
    (fetchProjectsV3 "Koala" defaultLoc 6000 c6Svc emptyV3State).2 =
      [Request.projectSearch "Koala",
       Request.getProjects { latitude := -17, longitude := 146, radius := 6000 }] :=
  ⟨(empty_area_terminal "Koala" defaultLoc 6000 c6Svc emptyV3State
      { Project := some [{ ProjectID := 101 }, { ProjectID := 102 }] }
      { Project := some [{ ProjectID := 999 }] }
      rfl (by decide) rfl (by decide)).1,
   (empty_area_terminal "Koala" defaultLoc 6000 c6Svc emptyV3State
      { Project := some [{ ProjectID := 101 }, { ProjectID := 102 }] }
      { Project := some [{ ProjectID := 999 }] }
      rfl (by decide) rfl (by decide)).2.1⟩

/-- C1 amended: in V3 every issued metadata request consists exactly of the
circle-response projects whose ids survived the intersection with the stage-1
identifier set, so each requested id lies in the stage-1 set and in the
circle response; in V1 the metadata request reuses the full stage-1
identifier set — still a subset of the initiating search's ids, but ids
eliminated by the circle-filtered survey lookup are not removed (see the
counterexample). -/
theorem metadata_request_ids :
    (∀ (kw : String) (loc : Coordinate) (radius : Nat) (svc : V3Service) (prev : V3State)
      (r1 r2 : ProjectsResponse) (L : List Nat),
      svc.projectSearch kw = .ok r1 →
      svc.getProjects { latitude := loc.latitude, longitude := loc.longitude,
                        radius := radius } = .ok r2 →
      Request.getProjectsMetadata L ∈ (fetchProjectsV3 kw loc radius svc prev).2 →
      L = ((r2.Project.getD []).filter (fun project =>
            (projectIDsOf r1).contains project.ProjectID)).map
          (fun project => project.ProjectID) ∧
      ∀ pid ∈ L, pid ∈ projectIDsOf r1 ∧
        pid ∈ (r2.Project.getD []).map (fun project => project.ProjectID)) ∧
    (∀ (kw : String) (loc : Coordinate) (radius : Nat) (svc : V1Service) (prev : V1State)
      (r1 : ProjectsResponse) (L : List Nat),
      svc.projectSearch kw = .ok r1 →
      Request.getProjectsMetadata L ∈ (fetchProjectsV1 kw loc radius svc prev).2 →
      L = projectIDsOf r1) := by
  constructor
  · intro kw loc radius svc prev r1 r2 L h1 h3 hmem
    by_cases h2 : projectIDsOf r1 = []
    · simp [fetchProjectsV3, h1, h2] at hmem
    · by_cases h4 : (r2.Project.getD []).filter (fun project =>
          (projectIDsOf r1).contains project.ProjectID) = []
      · simp only [fetchProjectsV3, h1, h3] at hmem
        rw [if_neg h2, if_pos h4] at hmem
        simp at hmem
      · simp only [fetchProjectsV3, h1, h3] at hmem
        rw [if_neg h2, if_neg h4] at hmem
        have hL : L = ((r2.Project.getD []).filter (fun project =>
            (projectIDsOf r1).contains project.ProjectID)).map
            (fun project => project.ProjectID) := by
          rcases hmd : svc.getProjectsMetadata (((r2.Project.getD []).filter (fun project =>
              (projectIDsOf r1).contains project.ProjectID)).map
              (fun project => project.ProjectID)) with e | md
          · rw [hmd] at hmem
            simpa using hmem
          · rw [hmd] at hmem
            cases md <;> simpa using hmem
        subst hL
        refine ⟨rfl, ?_⟩
        intro pid hpid
        rw [List.mem_map] at hpid
        obtain ⟨p, hp, rfl⟩ := hpid
        rw [List.mem_filter] at hp
        exact ⟨by simpa using hp.2, List.mem_map_of_mem _ hp.1⟩
  · intro kw loc radius svc prev r1 L h1 hmem
    by_cases h2 : projectIDsOf r1 = []
    · simp [fetchProjectsV1, h1, h2] at hmem
    · simp only [fetchProjectsV1, h1] at hmem
      rw [if_neg h2] at hmem
      rcases hsv : svc.getSurveys (projectIDsOf r1)
          { latitude := loc.latitude, longitude := loc.longitude, radius := radius } with e | r2
      · rw [hsv] at hmem
        simp at hmem
      · rw [hsv] at hmem
        rcases hmd : svc.getProjectsMetadata (projectIDsOf r1) with e | md
        · rw [hmd] at hmem
          simpa using hmem
        · rw [hmd] at hmem
          simpa using hmem

/-- Witness for the amended C1: with a V3 run whose circle holds 101 and 999
and whose keyword set is 101 and 102, the issued metadata request is exactly
[101], and 101 belongs to both the stage-1 set and the circle response. -/
theorem metadata_request_ids_witness :
    ([101] : List Nat) =
      ((({ Project := some [{ ProjectID := 101 }, { ProjectID := 999 }] } :
          ProjectsResponse).Project.getD []).filter (fun project =>
        (projectIDsOf { Project := some [{ ProjectID := 101 }, { ProjectID := 102 }] }).contains
          project.ProjectID)).map (fun project => project.ProjectID) ∧
    (101 ∈ projectIDsOf { Project := some [{ ProjectID := 101 }, { ProjectID := 102 }] } ∧
     101 ∈ (({ Project := some [{ ProjectID := 101 }, { ProjectID := 999 }] } :
          ProjectsResponse).Project.getD []).map (fun project => project.ProjectID)) := by
  have h := metadata_request_ids.1 "Koala" defaultLoc 6000 c1SvcV3 emptyV3State
    { Project := some [{ ProjectID := 101 }, { ProjectID := 102 }] }
    { Project := some [{ ProjectID := 101 }, { ProjectID := 999 }] } [101]
    rfl rfl (by decide)
  exact ⟨h.1, h.2 101 (by decide)⟩

/-- C1 counterexample: in V1 the metadata request repeats the full stage-1 id
list: although the circle-filtered survey response mentions only project 101,
the eliminated id 102 is still sent to the metadata fetch. -/
theorem unfiltered_metadata_request :
    (fetchProjectsV1 "Koala" defaultLoc 6000 c1Svc emptyV1State).2 =
      [Request.projectSearch "Koala",
       Request.getSurveys [101, 102] { latitude := -17, longitude := 146, radius := 6000 },
       Request.getProjectsMetadata [101, 102]] ∧
    c1Svc.getSurveys [101, 102] { latitude := -17, longitude := 146, radius := 6000 } =
      .ok { features := some [c1Survey] } ∧
    c1Survey.properties.ProjectID = some 101 := by
  refine ⟨by decide, rfl, rfl⟩

/-- C9 amended: transport failures in the V3 and V1 keyword pipelines are
caught at any stage and surfaced with the generic retry message; in V2 a
failure of the survey call is surfaced with its own generic retry message,
but a failure of the metadata call is caught and only logged — no message is
surfaced at all (see the counterexample), so the single-uniform-message claim
holds only for the keyword pipelines. -/
theorem transport_failure_messages :
    (∀ (kw : String) (loc : Coordinate) (radius : Nat) (svc : V3Service) (prev : V3State),
      svc.projectSearch kw = .error () →
      (fetchProjectsV3 kw loc radius svc prev).1.errorMsg = some fetchDataErrorMsg) ∧
    (∀ (kw : String) (loc : Coordinate) (radius : Nat) (svc : V3Service) (prev : V3State)
      (r1 : ProjectsResponse),
      svc.projectSearch kw = .ok r1 → projectIDsOf r1 ≠ [] →
      svc.getProjects { latitude := loc.latitude, longitude := loc.longitude,
                        radius := radius } = .error () →
      (fetchProjectsV3 kw loc radius svc prev).1.errorMsg = some fetchDataErrorMsg) ∧
    (∀ (kw : String) (loc : Coordinate) (radius : Nat) (svc : V3Service) (prev : V3State)
      (r1 r2 : ProjectsResponse),
      svc.projectSearch kw = .ok r1 → projectIDsOf r1 ≠ [] →
      svc.getProjects { latitude := loc.latitude, longitude := loc.longitude,
                        radius := radius } = .ok r2 →
      (r2.Project.getD []).filter (fun project =>
        (projectIDsOf r1).contains project.ProjectID) ≠ [] →
      svc.getProjectsMetadata (((r2.Project.getD []).filter (fun project =>
        (projectIDsOf r1).contains project.ProjectID)).map
          (fun project => project.ProjectID)) = .error () →
      (fetchProjectsV3 kw loc radius svc prev).1.errorMsg = some fetchDataErrorMsg) ∧
    (∀ (kw : String) (loc : Coordinate) (radius : Nat) (svc : V1Service) (prev : V1State),
      svc.projectSearch kw = .error () →
      (fetchProjectsV1 kw loc radius svc prev).1.errorMsg = some fetchDataErrorMsg) ∧
    (∀ (kw : String) (loc : Coordinate) (radius : Nat) (svc : V1Service) (prev : V1State)
      (r1 : ProjectsResponse),
      svc.projectSearch kw = .ok r1 → projectIDsOf r1 ≠ [] →
      svc.getSurveys (projectIDsOf r1)
        { latitude := loc.latitude, longitude := loc.longitude, radius := radius } =
        .error () →
      (fetchProjectsV1 kw loc radius svc prev).1.errorMsg = some fetchDataErrorMsg) ∧
    (∀ (kw : String) (loc : Coordinate) (radius : Nat) (svc : V1Service) (prev : V1State)
      (r1 : ProjectsResponse) (r2 : SurveysResponse),
      svc.projectSearch kw = .ok r1 → projectIDsOf r1 ≠ [] →
      svc.getSurveys (projectIDsOf r1)
        { latitude := loc.latitude, longitude := loc.longitude, radius := radius } =
        .ok r2 →
      svc.getProjectsMetadata (projectIDsOf r1) = .error () →
      (fetchProjectsV1 kw loc radius svc prev).1.errorMsg = some fetchDataErrorMsg) ∧
    (∀ (taxonId : Nat) (loc : Coordinate) (radius : Nat) (svc : V2Service) (prev : V2State),
      taxonId ≠ 0 →
      svc.getSurveysBySpecies taxonId
        { latitude := loc.latitude, longitude := loc.longitude, radius := radius } =
        .error () →
      (fetchSurveysV2 taxonId loc radius svc prev).1.errorMsg = some surveyDataErrorMsg) ∧
    (∀ (taxonId : Nat) (loc : Coordinate) (radius : Nat) (svc : V2Service) (prev : V2State)
      (r : SurveysResponse),
      taxonId ≠ 0 →
      svc.getSurveysBySpecies taxonId
        { latitude := loc.latitude, longitude := loc.longitude, radius := radius } =
        .ok r →
      r.features.getD [] ≠ [] →
      svc.getProjectsMetadata
        ((processSurveys (r.features.getD [])).projectIDs.map (fun e => e.1)) = .error () →
      (fetchSurveysV2 taxonId loc radius svc prev).1.errorMsg = none) := by
  refine ⟨?_, ?_, ?_, ?_, ?_, ?_, ?_, ?_⟩
  · intro kw loc radius svc prev h1
    simp [fetchProjectsV3, h1]
  · intro kw loc radius svc prev r1 h1 h2 h3
    simp only [fetchProjectsV3, h1, h3]
    rw [if_neg h2]
  · intro kw loc radius svc prev r1 r2 h1 h2 h3 h4 h5
    simp only [fetchProjectsV3, h1, h3]
    rw [if_neg h2, if_neg h4, h5]
  · intro kw loc radius svc prev h1
    simp [fetchProjectsV1, h1]
  · intro kw loc radius svc prev r1 h1 h2 h3
    simp only [fetchProjectsV1, h1, h3]
    rw [if_neg h2]
  · intro kw loc radius svc prev r1 r2 h1 h2 h3 h4
    simp only [fetchProjectsV1, h1, h3, h4]
    rw [if_neg h2]
  · intro taxonId loc radius svc prev htax h1
    simp only [fetchSurveysV2, h1]
    rw [if_neg htax]
  · intro taxonId loc radius svc prev r htax h1 hne hmd
    simp only [fetchSurveysV2, h1]
    rw [if_neg htax, if_neg hne]
    simp only [fetchProjectsMetadataV2, hmd]

/-- Witness for the amended C9: each failure point evaluated at a concrete
service run. -/
theorem transport_failure_messages_witness :
    (fetchProjectsV3 "Koala" defaultLoc 6000 v3FailS1Svc emptyV3State).1.errorMsg =
      some fetchDataErrorMsg ∧
    (fetchProjectsV3 "Koala" defaultLoc 6000 v3FailS2Svc emptyV3State).1.errorMsg =
      some fetchDataErrorMsg ∧
    (fetchProjectsV3 "Koala" defaultLoc 6000 v3FailS3Svc emptyV3State).1.errorMsg =
      some fetchDataErrorMsg ∧
    (fetchProjectsV1 "Koala" defaultLoc 6000 v1FailSvc emptyV1State).1.errorMsg =
      some fetchDataErrorMsg ∧
    (fetchProjectsV1 "Koala" defaultLoc 6000 v1FailS2Svc emptyV1State).1.errorMsg =
      some fetchDataErrorMsg ∧
    (fetchProjectsV1 "Koala" defaultLoc 6000 v1FailS3Svc emptyV1State).1.errorMsg =
      some fetchDataErrorMsg ∧
    (fetchSurveysV2 55 defaultLoc 6000 v2FailSurveySvc emptyV2State).1.errorMsg =
      some surveyDataErrorMsg ∧
    (fetchSurveysV2 55 defaultLoc 6000 c9Svc emptyV2State).1.errorMsg = none :=
  ⟨transport_failure_messages.1 "Koala" defaultLoc 6000 v3FailS1Svc emptyV3State rfl,
   transport_failure_messages.2.1 "Koala" defaultLoc 6000 v3FailS2Svc emptyV3State
     { Project := some [{ ProjectID := 101 }] } rfl (by decide) rfl,
   transport_failure_messages.2.2.1 "Koala" defaultLoc 6000 v3FailS3Svc emptyV3State
     { Project := some [{ ProjectID := 101 }] } { Project := some [{ ProjectID := 101 }] }
     rfl (by decide) rfl (by decide) rfl,
   transport_failure_messages.2.2.2.1 "Koala" defaultLoc 6000 v1FailSvc emptyV1State rfl,
   transport_failure_messages.2.2.2.2.1 "Koala" defaultLoc 6000 v1FailS2Svc emptyV1State
     { Project := some [{ ProjectID := 101 }] } rfl (by decide) rfl,
   transport_failure_messages.2.2.2.2.2.1 "Koala" defaultLoc 6000 v1FailS3Svc emptyV1State
     { Project := some [{ ProjectID := 101 }] } { features := some [c1Survey] }
     rfl (by decide) rfl rfl,
   transport_failure_messages.2.2.2.2.2.2.1 55 defaultLoc 6000 v2FailSurveySvc emptyV2State
     (by decide) rfl,
   transport_failure_messages.2.2.2.2.2.2.2 55 defaultLoc 6000 c9Svc emptyV2State
     { features := some [c9Survey] } (by decide) rfl (by decide) rfl⟩

/-- C9 counterexample: a transport failure at the V2 metadata stage is caught
but surfaces no user-facing message at all — the run ends with no error
message although the metadata request was issued and failed; moreover V2's
survey-stage message differs from the keyword pipelines' message, so there is
no single generic message across stages. -/
theorem metadata_failure_silent :
    (fetchSurveysV2 55 defaultLoc 6000 c9Svc emptyV2State).1.errorMsg = none ∧
    (fetchSurveysV2 55 defaultLoc 6000 c9Svc emptyV2State).2 =
      [Request.getSurveysBySpecies 55 { latitude := -17, longitude := 146, radius := 6000 },
       Request.getProjectsMetadata [55]] ∧
    c9Svc.getProjectsMetadata [55] = .error () ∧
    surveyDataErrorMsg ≠ fetchDataErrorMsg := by
  refine ⟨by decide, by decide, rfl, by decide⟩
